import Mathlib

/-!
Verification of the orchestration core of the AutoPM process-mining agent.

The development shallowly embeds the control-flow skeleton of
`pm_agent/main.py` (step retry loop, session restart loop, confirmation
gate, memory persistence), `pm_agent/safe_executor.py` (sandboxed code
execution), `pm_agent/llm.py` (judge-response parsing) and
`pm_agent/chat_tools.py` (tool dispatch).  External collaborators (the
LLM planner, judges, summarizer and the per-stage agent classes) are
modelled as oracle function parameters; Python exceptions raised by them
are modelled as explicit data constructors, so a Lean function being
total corresponds to the Python code never letting an exception escape
the modelled boundary.
-/

namespace AutoPM

/-- Tabular working dataset (a pandas DataFrame), abstracted as rows of
cell strings.  Only copy/equality structure matters to the claims. -/
def Dataset : Type := List (List String)

instance : DecidableEq Dataset := by
  unfold Dataset
  infer_instance

/-- Model of `df.copy()`: a structural deep copy producing a value whose
contents equal the source but which shares no mutable structure. -/
def copyDataset (d : Dataset) : Dataset :=
  d.map (fun row => row.map (fun cell => cell))

/-! Step executor (`run_tool_wrapper`, main.py lines 86-152). -/

/-- Raw return value of a stage function, mirroring the three shapes
`run_tool_wrapper` distinguishes: a tuple `(report, new_df)`, a plain
string, or any other value carried in its `json.dumps` serialized form. -/
inductive StageResult where
  | strRes (s : String)
  | pairRes (report : String) (newDf : Dataset)
  | otherRes (serialized : String)
deriving DecidableEq

/-- main.py lines 110-117: the string handed to the judge. -/
def resultToStr : StageResult → String
  | .strRes s => s
  | .pairRes report _ => report
  | .otherRes serialized => serialized

/-- Outcome of one invocation of a stage function: either a value or an
exception (caught at main.py line 119). -/
inductive AgentOutcome where
  | ok (res : StageResult)
  | raises (msg : String)
deriving DecidableEq

/-- Verdict read out of `judge_step`'s dict at main.py lines 125-127
(the `.get` defaults are folded into the oracle producing the verdict). -/
structure JudgeVerdict where
  passed : Bool
  critique : String
  score : Int
deriving DecidableEq

/-- main.py line 93. -/
def MAX_SAFE_RETRIES : Nat := 15

/-- One iteration's try/except block (main.py lines 96-121): on success
the held result is replaced and serialized for the judge; on an agent
exception the held result is kept and the judged string is the error
text. -/
def attemptStep (agentFn : Nat → String → AgentOutcome) (attempt : Nat)
    (feedback : String) (prevResult : Option StageResult) :
    Option StageResult × String :=
  match agentFn attempt feedback with
  | .ok r => (some r, resultToStr r)
  | .raises msg => (prevResult, "Ошибка выполнения: " ++ msg)

/-- The retry loop of `run_tool_wrapper` (main.py lines 95-150), with
`fuel` counting the attempts still allowed after the current one
(`fuel = MAX_SAFE_RETRIES - attempt`), so `fuel = 0` is exactly the
Python condition `attempt == MAX_SAFE_RETRIES`.  The judge oracle
receives the attempt number and the judged result string. -/
def runToolAux (agentFn : Nat → String → AgentOutcome)
    (judge : Nat → String → JudgeVerdict) :
    Nat → Nat → Option StageResult → String → Option StageResult × Nat
  | 0, attempt, result, _ => (result, attempt)
  | fuel + 1, attempt, result, feedback =>
    if (judge attempt (attemptStep agentFn attempt feedback result).2).passed = true
        ∨ fuel = 0 then
      ((attemptStep agentFn attempt feedback result).1, attempt)
    else
      runToolAux agentFn judge fuel (attempt + 1)
        (attemptStep agentFn attempt feedback result).1
        (judge attempt (attemptStep agentFn attempt feedback result).2).critique

/-- `run_tool_wrapper`: runs the loop from attempt 1 with no held result
and empty feedback; returns the final held result together with the
number of the attempt on which the loop returned. -/
def run_tool_wrapper (agentFn : Nat → String → AgentOutcome)
    (judge : Nat → String → JudgeVerdict) : Option StageResult × Nat :=
  runToolAux agentFn judge MAX_SAFE_RETRIES 1 none ""

/-- Concrete stage oracle used to instantiate proved specifications:
always returns a string result recording the feedback it was given. -/
def demoAgent : Nat → String → AgentOutcome :=
  fun _ feedback => .ok (.strRes ("result after feedback: " ++ feedback))

/-- Concrete judge oracle: rejects the first two attempts with a fixed
critique and accepts from the third attempt on. -/
def demoJudge : Nat → String → JudgeVerdict :=
  fun attempt _ => ⟨decide (3 ≤ attempt), "add more detail", 2⟩

/-! Sandboxed executor (`execute_pandas_code`, safe_executor.py lines 41-147). -/

/-- The names bound in `restricted_builtins` (safe_executor.py lines
62-85), in source order.  `print` is bound to a no-op lambda. -/
def restricted_builtin_names : List String :=
  ["__import__", "len", "sum", "min", "max", "round", "sorted", "list", "dict",
   "str", "int", "float", "bool", "tuple", "set", "abs", "range", "enumerate",
   "zip", "any", "all", "print"]

/-- The names bound in `allowed_globals` (safe_executor.py lines 87-92). -/
def allowed_global_names : List String := ["df", "pd", "np", "__builtins__"]

/-- Modelled from the spec: the built-in allow-list as the claim
enumerates it — "length, sum, min/max, rounding, collection
constructors, abs, range, enumerate, zip, any/all" (scalar constructors
counted in generously). -/
def claimed_builtin_names : List String :=
  ["len", "sum", "min", "max", "round", "list", "dict", "str", "int", "float",
   "bool", "tuple", "set", "abs", "range", "enumerate", "zip", "any", "all"]

/-- A Python value in the sandbox's local namespace, carried as its
`format_result` rendering together with its Python type name. -/
structure PyValue where
  rendered : String
  tyName : String
deriving DecidableEq

/-- The namespace visible to the executed snippet: the cloned dataset
bound to `"df"`, plus the `local_vars` dict the snippet populates.  The
`pd`/`np` handles and the restricted built-ins are the fixed bindings
enumerated by `allowed_global_names` and `restricted_builtin_names`. -/
structure SandboxState where
  df : Dataset
  locals : List (String × PyValue)
deriving DecidableEq

/-- How one `exec` of a snippet can end: normally, with the final
sandbox namespace, or with one of the exception classes caught at
safe_executor.py lines 133-143 (timeout, syntax error, NameError, any
other exception with its type name). -/
inductive ExecEvent where
  | completes (final : SandboxState)
  | timedOut (msg : String)
  | badParse (msg : String)
  | nameErr (msg : String)
  | otherExn (tyName : String) (msg : String)

/-- Semantics of a code snippet, as a function of the initial sandbox
namespace it is executed in. -/
def Snippet : Type := SandboxState → ExecEvent

/-- The dict returned by `execute_pandas_code`: either
`{"success": True, "result": ..., "result_type": ...}` or
`{"success": False, "error": ...}`. -/
inductive ExecResult where
  | ok (result : String) (resultType : String)
  | fail (error : String)
deriving DecidableEq

/-- safe_executor.py line 113: the error reported when the snippet never
bound the designated `result` output slot. -/
def missing_result_msg : String :=
  "Код выполнен, но переменная 'result' не определена. Сохрани результат в переменную 'result'."

/-- safe_executor.py lines 121-125: the 10 KB size cap with its
truncation marker. -/
def capResult (s : String) : String :=
  if 10240 < s.length then
    s.take 10000 ++ "\n... (обрезано, слишком большой результат)"
  else s

/-- Lookup in the `local_vars` dict left behind by the snippet. -/
def lookupLocal (locals : List (String × PyValue)) (name : String) : Option PyValue :=
  (locals.find? (fun kv => kv.1 == name)).map (fun kv => kv.2)

/-- safe_executor.py lines 59 and 87-94: the namespace the snippet is
executed in binds the clone `df.copy()` and an empty `local_vars`. -/
def initialSandbox (df : Dataset) : SandboxState :=
  { df := copyDataset df, locals := [] }

/-- `execute_pandas_code` (safe_executor.py lines 41-147): run the
snippet on the sandbox namespace built from the cloned dataset, then
either extract and cap the `result` local or classify the failure.  The
pair's second component is the caller's dataset object after the call;
the snippet is never given a reference to it. -/
def execute_pandas_code (snippet : Snippet) (df : Dataset) : ExecResult × Dataset :=
  (match snippet (initialSandbox df) with
   | .timedOut msg => .fail msg
   | .badParse msg => .fail ("Синтаксическая ошибка: " ++ msg)
   | .nameErr msg =>
     .fail ("Ошибка имени (возможно, используется недоступная функция): " ++ msg)
   | .otherExn tyName msg => .fail (tyName ++ ": " ++ msg)
   | .completes fin =>
     match lookupLocal fin.locals "result" with
     | none => .fail missing_result_msg
     | some v => .ok (capResult v.rendered) v.tyName,
   df)

/-- Concrete snippet that completes without ever binding `result`. -/
def snippetNoResult : Snippet :=
  fun st => .completes { st with locals := [("x", ⟨"1", "int"⟩)] }

/-- Concrete snippet that hits the 5-second alarm. -/
def snippetTimeout : Snippet :=
  fun _ => .timedOut "Code execution timed out (5 seconds)"

/-- Concrete snippet that raises a NameError (forbidden symbol). -/
def snippetNameErr : Snippet :=
  fun _ => .nameErr "name 'open' is not defined"

/-- Concrete dataset used to instantiate proved specifications. -/
def demoDf : Dataset := [["c1", "A", "t1"], ["c1", "B", "t2"]]

/-! Human confirmation gate of the Code Interpreter (main.py lines 697-723). -/

/-- Result of `validate_code_syntax` as consumed at main.py line 698. -/
inductive ValidationOutcome where
  | valid
  | invalid (errMsg : String)
deriving DecidableEq

/-- What the Code Interpreter attempt does after generating code. -/
inductive CiAction where
  | retryWithError (errMsg : String)
  | cancelled
  | runSandbox
deriving DecidableEq

/-- main.py lines 698-723: a failed syntax validation feeds the error
back for the next attempt; otherwise the user is prompted
("Нажмите Enter для выполнения или любой текст для отмены") and the
reply is tested for truthiness (`if confirm:`): a non-empty reply
cancels, an empty reply falls through to `execute_pandas_code`. -/
def ciConfirmGate (validation : ValidationOutcome) (confirm : String) : CiAction :=
  match validation with
  | .invalid errMsg => .retryWithError errMsg
  | .valid => if confirm ≠ "" then .cancelled else .runSandbox

/-! Judge-response parsing (`judge_step`, llm.py lines 59-93). -/

/-- llm.py lines 87-90: `start = response.find('{')`,
`end = response.rfind('}') + 1`, candidate slice `response[start:end]`.
Since `end` can never equal `-1`, the guard `start != -1 and end != -1`
reduces to the presence of `'{'`; with no closing brace the slice is
empty ( `end = 0` ). -/
def braceSlice (response : String) : Option String :=
  let cs := response.toList
  match cs.indexOf? '{' with
  | none => none
  | some start =>
    let stop :=
      match cs.reverse.indexOf? '}' with
      | none => 0
      | some k => cs.length - k
    some ((cs.drop start).take (stop - start)).asString

/-- The parsing tail of `judge_step` (llm.py lines 84-93): with no JSON
object in the reply, or with a slice `json.loads` rejects, the verdict
degrades to the permissive default `passed = True`, `score = 5`.  The
`parse` oracle stands for `json.loads` together with the `.get`
defaults applied by the caller. -/
def judge_step_parse (parse : String → Option JudgeVerdict) (response : String) :
    JudgeVerdict :=
  match braceSlice response with
  | none => ⟨true, "Не удалось разобрать ответ Судьи, пропускаем.", 5⟩
  | some slice =>
    match parse slice with
    | some v => v
    | none => ⟨true, "Ошибка парсинга ответа Судьи.", 5⟩

/-- A judge reply on which JSON extraction fails: either no `'{'` at
all, or `json.loads` rejects the extracted slice. -/
def parseFails (parse : String → Option JudgeVerdict) (response : String) : Prop :=
  braceSlice response = none ∨
    ∃ slice, braceSlice response = some slice ∧ parse slice = none

/-! Memory persistence (main.py lines 457-465). -/

/-- File-system actions the session loop can perform. -/
inductive FsAction where
  | write (path : String) (content : String)
  | rename (srcPath : String) (dstPath : String)
  | append (path : String) (content : String)
deriving DecidableEq

/-- `os.path.join` for the two-component paths used here. -/
def joinPath (dir file : String) : String := dir ++ "/" ++ file

/-- main.py lines 461-465: the per-round memory persistence — a single
direct `open(..., "w")` overwrite of `memory.md` with the full blob. -/
def persistMemoryActions (outputDir memoryText : String) : List FsAction :=
  [.write (joinPath outputDir "memory.md") memoryText]

/-- Modelled from the spec: "write the full content to a temporary
file, then atomically rename it over the memory file" — the check that
an action sequence follows the write-temp-then-rename protocol for the
given target and content. -/
def isWriteTempThenRename (target content : String) : List FsAction → Bool
  | [.write tmpPath c, .rename srcPath dstPath] =>
    tmpPath == srcPath && tmpPath != target && c == content && dstPath == target
  | _ => false

/-! Session loop (`main`, main.py lines 254-498). -/

/-- main.py line 298. -/
def MAX_STEPS : Nat := 10

/-- main.py line 302 (1 initial session + 1 retry). -/
def MAX_SESSION_RETRIES : Nat := 2

/-- Verdict of the cumulative session judge (main.py lines 470-474;
the `.get` fallbacks are folded into the oracle). -/
structure CumVerdict where
  passed : Bool
  critique : String
deriving DecidableEq

/-- The mutable state the round loop threads: `artifacts`, `memory`,
`current_df` and `global_passed`. -/
structure RoundState where
  artifacts : List (String × String)
  memory : String
  df : Dataset
  globalPassed : Bool
deriving DecidableEq

/-- How the inner round loop (main.py lines 319-496) exits. -/
inductive RoundExit where
  | finished
  | restartRequested (critique : String)
  | budgetExhausted
  | stepLimit
  | whileExit
deriving DecidableEq

/-- Result of the dispatch-and-execute block for one round (main.py
lines 339-455): updated artifacts mapping, updated working dataset, the
step's textual result, and whether the surrounding `except` at line 452
fired (in which case the result text is the error message and the step
output is not appended to `cumulative_outputs`). -/
structure ToolRunResult where
  artifacts : List (String × String)
  df : Dataset
  resultStr : String
  raised : Bool
deriving DecidableEq

/-- External collaborators of the session loop, indexed by session
attempt and round number so that repeated calls may answer
differently. -/
structure SessionOracles where
  planner : Nat → Nat → String → String
  toolRun : Nat → Nat → List (String × String) → Dataset → ToolRunResult
  memUpdate : Nat → Nat → String → String → String → String
  cumJudge : Nat → Nat → String → Nat → String → CumVerdict

/-- main.py lines 448-450: the entry recorded for cumulative judging. -/
def stepOutputEntry (stepCount : Nat) (toolName resStr : String) : String :=
  "Step " ++ toString stepCount ++ ": " ++ toolName ++ "\nResult:\n" ++ resStr

/-- main.py line 469: `"\n---\n".join(cumulative_outputs)`. -/
def joinOutputs (outs : List String) : String := String.intercalate "\n---\n" outs

/-- main.py line 481: the memory seeded for the restarted session. -/
def restartMemory (critique : String) : String :=
  "Previous Session Failed.\nCritique: " ++ critique ++ "\nRestarting process...\nData loaded."

/-- main.py lines 447-450: `cumulative_outputs` after one round — the
step entry is appended only when the dispatch block did not raise. -/
def nextOutputs (outs : List String) (stepCount : Nat) (tool : String)
    (tr : ToolRunResult) : List String :=
  if tr.raised then outs
  else outs ++ [stepOutputEntry stepCount tool tr.resultStr]

/-- The cumulative judge's verdict for one round (main.py lines
457-474): memory is first replaced by the summarizer's output, then the
judge receives the new memory, the artifact count and the joined
cumulative outputs. -/
def roundVerdict (o : SessionOracles) (sessionAttempt step : Nat) (st : RoundState)
    (outs : List String) : CumVerdict :=
  o.cumJudge sessionAttempt step
    (o.memUpdate sessionAttempt step st.memory
      (o.planner sessionAttempt step st.memory)
      (o.toolRun sessionAttempt step st.artifacts st.df).resultStr)
    (o.toolRun sessionAttempt step st.artifacts st.df).artifacts.length
    (joinOutputs (nextOutputs outs step (o.planner sessionAttempt step st.memory)
      (o.toolRun sessionAttempt step st.artifacts st.df)))

/-- The round state after one dispatched (non-Finish) round: the tool
block's artifacts and dataset, the summarizer's memory, and
`global_passed` set to the cumulative verdict. -/
def roundStateAfter (o : SessionOracles) (sessionAttempt step : Nat) (st : RoundState)
    (outs : List String) : RoundState :=
  ⟨(o.toolRun sessionAttempt step st.artifacts st.df).artifacts,
   o.memUpdate sessionAttempt step st.memory
     (o.planner sessionAttempt step st.memory)
     (o.toolRun sessionAttempt step st.artifacts st.df).resultStr,
   (o.toolRun sessionAttempt step st.artifacts st.df).df,
   (roundVerdict o sessionAttempt step st outs).passed⟩

/-- The inner round loop (main.py lines 319-496), with `fuel` the number
of rounds the `while step_count < MAX_STEPS` guard still admits
(`fuel = MAX_STEPS - stepCount`, so the exhausted-guard case `whileExit`
is unreachable from a `MAX_STEPS` start because the bottom limit check
`step_count >= MAX_STEPS` breaks first).  Each round: ask the planner;
`"Finish"` breaks immediately; otherwise dispatch the tool, record the
output, replace memory via the summarizer, ask the cumulative judge and
set `global_passed` to its verdict; a failing verdict breaks with a
restart request while session budget remains and with `budgetExhausted`
otherwise; a passing verdict at the step limit breaks with
`global_passed = True`. -/
def roundLoop (o : SessionOracles) (sessionAttempt : Nat) :
    Nat → Nat → RoundState → List String → RoundExit × RoundState
  | 0, _, st, _ => (.whileExit, st)
  | fuel + 1, stepCount, st, outs =>
    if o.planner sessionAttempt (stepCount + 1) st.memory = "Finish" then
      (.finished, st)
    else
      if (roundVerdict o sessionAttempt (stepCount + 1) st outs).passed = true then
        if MAX_STEPS ≤ stepCount + 1 then
          (.stepLimit,
           { roundStateAfter o sessionAttempt (stepCount + 1) st outs with
              globalPassed := true })
        else
          roundLoop o sessionAttempt fuel (stepCount + 1)
            (roundStateAfter o sessionAttempt (stepCount + 1) st outs)
            (nextOutputs outs (stepCount + 1)
              (o.planner sessionAttempt (stepCount + 1) st.memory)
              (o.toolRun sessionAttempt (stepCount + 1) st.artifacts st.df))
      else
        if sessionAttempt < MAX_SESSION_RETRIES then
          (.restartRequested (roundVerdict o sessionAttempt (stepCount + 1) st outs).critique,
           roundStateAfter o sessionAttempt (stepCount + 1) st outs)
        else
          (.budgetExhausted, roundStateAfter o sessionAttempt (stepCount + 1) st outs)

/-- The final session-loop state: the attempt counter, the outcome flag
gating the consultation phase, and the surviving artifacts, memory and
working dataset. -/
structure FinalState where
  sessionAttempt : Nat
  globalPassed : Bool
  artifacts : List (String × String)
  memory : String
  df : Dataset
deriving DecidableEq

/-- The outer session loop (main.py lines 308-496): while budget remains
(`fuel = MAX_SESSION_RETRIES - sessionAttempt` mirrors
`session_attempt < MAX_SESSION_RETRIES`) and the session has not
passed, increment the attempt counter and run the round loop.  A
requested restart (main.py lines 478-485) clears the artifacts, reseeds
memory from the critique and resets the working dataset to a copy of
the original load `df0`; every other exit carries the round state
forward into the next guard check. -/
def sessionLoop (o : SessionOracles) (df0 : Dataset) :
    Nat → Nat → RoundState → FinalState
  | 0, sessionAttempt, st =>
    ⟨sessionAttempt, st.globalPassed, st.artifacts, st.memory, st.df⟩
  | fuel + 1, sessionAttempt, st =>
    if st.globalPassed = true then
      ⟨sessionAttempt, st.globalPassed, st.artifacts, st.memory, st.df⟩
    else
      match roundLoop o (sessionAttempt + 1) MAX_STEPS 0 st [] with
      | (.restartRequested critique, st') =>
        sessionLoop o df0 fuel (sessionAttempt + 1)
          ⟨[], restartMemory critique, copyDataset df0, st'.globalPassed⟩
      | (_, st') => sessionLoop o df0 fuel (sessionAttempt + 1) st'

/-- main.py line 259. -/
def initialSessionMemory : String :=
  "Session started. Data loaded successfully. No analysis steps performed yet."

/-- A fresh (non-resume) session run (main.py lines 254-498): working
copy of the loaded dataset, empty artifacts, fresh memory,
`global_passed = False`, full session budget. -/
def runSession (o : SessionOracles) (df0 : Dataset) : FinalState :=
  sessionLoop o df0 MAX_SESSION_RETRIES 0
    ⟨[], initialSessionMemory, copyDataset df0, false⟩

/-- main.py line 498: the interactive consultation phase runs iff
`global_passed` is set. -/
def proceedsToConsultation (fs : FinalState) : Bool := fs.globalPassed

/-- Concrete session oracles whose cumulative judge always passes and
whose planner never chooses `"Finish"`. -/
def demoPassOracles : SessionOracles where
  planner := fun _ _ _ => "Data Profiling"
  toolRun := fun _ _ artifacts df => ⟨artifacts, df, "step done", false⟩
  memUpdate := fun _ _ mem _ _ => mem ++ " +"
  cumJudge := fun _ _ _ _ _ => ⟨true, "OK"⟩

/-- Concrete session oracles whose cumulative judge always fails. -/
def demoFailOracles : SessionOracles where
  planner := fun _ _ _ => "Data Profiling"
  toolRun := fun _ _ artifacts df => ⟨artifacts, df, "step done", false⟩
  memUpdate := fun _ _ mem _ _ => mem ++ " +"
  cumJudge := fun _ _ _ _ _ => ⟨false, "Failed on purpose"⟩

/-- Concrete initial round state for witnesses. -/
def demoStartState : RoundState := ⟨[], initialSessionMemory, demoDf, false⟩

/-! Chat tool dispatch (`execute_tool`, chat_tools.py lines 560-573). -/

/-- The keys of the `CHAT_TOOLS` registry (chat_tools.py lines 413-548),
in source order. -/
def chat_tool_names : List String :=
  ["get_dataframe_info", "get_column_stats", "get_describe", "get_value_counts",
   "get_unique_values", "filter_by_value", "filter_numeric_range", "filter_contains",
   "group_and_count", "group_and_aggregate", "get_top_n", "get_correlation",
   "get_correlation_matrix", "get_percentile", "get_quantiles",
   "calculate_path_frequency", "get_case_duration_stats", "get_activity_frequency",
   "count_cases_and_activities", "find_bottlenecks", "get_rarest_paths"]

/-- Outcome of calling a registered tool function with keyword
arguments: a returned dict, a `TypeError` from an argument mismatch, or
any other raised exception. -/
inductive ToolOutcome where
  | ok (resultDict : List (String × String))
  | typeError (msg : String)
  | raises (msg : String)

/-- `execute_tool` (chat_tools.py lines 560-573): unknown names get an
error dict listing the available tools; otherwise the registered
function is dispatched with `TypeError` and generic exceptions caught
and converted into error dicts. -/
def execute_tool (impl : String → List (String × String) → Dataset → ToolOutcome)
    (toolName : String) (args : List (String × String)) (df : Dataset) :
    List (String × String) :=
  if toolName ∉ chat_tool_names then
    [("error", "Неизвестный инструмент: " ++ toolName ++ ". Попробуй один из: " ++
        String.intercalate ", " chat_tool_names)]
  else
    match impl toolName args df with
    | .ok d => d
    | .typeError msg => [("error", "Неверные аргументы: " ++ msg)]
    | .raises msg => [("error", msg)]

/-- Concrete judge-reply oracle that never produces a JSON object. -/
def demoNoJsonResponses : Nat → String → String :=
  fun _ _ => "Судья ответил свободным текстом без JSON"

/-- Concrete tool-implementation oracle covering all dispatch outcomes. -/
def demoToolImpl : String → List (String × String) → Dataset → ToolOutcome :=
  fun toolName _ _ =>
    if toolName = "get_top_n" then .typeError "unexpected keyword argument 'foo'"
    else if toolName = "get_describe" then .raises "Column does not exist"
    else .ok [("rows", "2")]

end AutoPM

namespace AutoPM

/-- Helper: for positive fuel the loop returns on an attempt numbered at
most `attempt + (fuel - 1)`. -/
theorem runToolAux_attempt_le (agentFn : Nat → String → AgentOutcome)
    (judge : Nat → String → JudgeVerdict) :
    ∀ fuel attempt result feedback, 1 ≤ fuel →
      (runToolAux agentFn judge fuel attempt result feedback).2 ≤ attempt + (fuel - 1) := by
  intro fuel
  induction fuel with
  | zero => intro attempt result feedback h; omega
  | succ f ih =>
    intro attempt result feedback _
    rw [runToolAux]
    split
    · omega
    · rename_i hcond
      have hf : f ≠ 0 := fun h => hcond (Or.inr h)
      have := ih (attempt + 1)
        (attemptStep agentFn attempt feedback result).1
        (judge attempt (attemptStep agentFn attempt feedback result).2).critique
        (by omega)
      omega

/-- C1: For every stage execution via `run_tool_wrapper`, the attempt on
which the loop returns is at most the configured retry bound
`MAX_SAFE_RETRIES = 15`; whenever the judge rejects and attempts remain,
the loop recurses with the judge's critique as the next feedback (the
stage function is re-invoked with `feedback = critique`); and whenever
the judge accepts or attempts are exhausted, the loop returns the held
result of the current attempt as-is.  The loop is a total Lean function
for arbitrary agent and judge oracles, with stage exceptions modelled as
the `AgentOutcome.raises` data constructor and caught by `attemptStep`,
so no exception passes this boundary. -/
theorem c1_run_tool_wrapper_retry_policy :
    (∀ agentFn judge, (run_tool_wrapper agentFn judge).2 ≤ MAX_SAFE_RETRIES) ∧
    (∀ agentFn judge fuel attempt result feedback,
      (judge attempt (attemptStep agentFn attempt feedback result).2).passed = false →
      fuel ≠ 0 →
      runToolAux agentFn judge (fuel + 1) attempt result feedback =
        runToolAux agentFn judge fuel (attempt + 1)
          (attemptStep agentFn attempt feedback result).1
          (judge attempt (attemptStep agentFn attempt feedback result).2).critique) ∧
    (∀ agentFn judge fuel attempt result feedback,
      ((judge attempt (attemptStep agentFn attempt feedback result).2).passed = true
          ∨ fuel = 0) →
      runToolAux agentFn judge (fuel + 1) attempt result feedback =
        ((attemptStep agentFn attempt feedback result).1, attempt)) := by
  refine ⟨?_, ?_, ?_⟩
  · intro agentFn judge
    have := runToolAux_attempt_le agentFn judge MAX_SAFE_RETRIES 1 none ""
      (by unfold MAX_SAFE_RETRIES; omega)
    unfold run_tool_wrapper
    unfold MAX_SAFE_RETRIES at *
    omega
  · intro agentFn judge fuel attempt result feedback hrej hfuel
    rw [runToolAux]
    rw [if_neg]
    intro h
    rcases h with h | h
    · rw [hrej] at h; exact Bool.false_ne_true h
    · exact hfuel h
  · intro agentFn judge fuel attempt result feedback hacc
    rw [runToolAux]
    rw [if_pos hacc]

/-- Witness for C1 at concrete oracles: the bound holds for the demo
oracles, a rejected first attempt with two attempts of fuel left
re-invokes with the judge's critique as feedback, and an accepting third
attempt returns that attempt's result. -/
theorem c1_witness :
    (run_tool_wrapper demoAgent demoJudge).2 ≤ MAX_SAFE_RETRIES ∧
    runToolAux demoAgent demoJudge 3 1 none "" =
      runToolAux demoAgent demoJudge 2 2
        (attemptStep demoAgent 1 "" none).1
        (demoJudge 1 (attemptStep demoAgent 1 "" none).2).critique ∧
    runToolAux demoAgent demoJudge 1 3 none "feedback text" =
      ((attemptStep demoAgent 3 "feedback text" none).1, 3) :=
  ⟨c1_run_tool_wrapper_retry_policy.1 demoAgent demoJudge,
   c1_run_tool_wrapper_retry_policy.2.1 demoAgent demoJudge 2 1 none "" (by decide)
     (by decide),
   c1_run_tool_wrapper_retry_policy.2.2 demoAgent demoJudge 0 3 none "feedback text"
     (Or.inr rfl)⟩

/-- Helper: the modelled `df.copy()` is content-equal to its source. -/
theorem copyDataset_eq (d : Dataset) : copyDataset d = d := by
  unfold copyDataset
  simp

/-- C3: `execute_pandas_code` never mutates the caller's dataset: for
every snippet semantics — including ones that time out, raise, or never
bind the output slot — the caller's dataset after the call equals the
dataset before it, the snippet is executed in a namespace whose `df`
binding is content-equal to the caller's dataset, and the clone
operation preserves contents. -/
theorem c3_execute_pandas_code_never_mutates :
    (∀ snippet df, (execute_pandas_code snippet df).2 = df) ∧
    (∀ df, (initialSandbox df).df = df) ∧
    (∀ df, copyDataset df = df) := by
  refine ⟨fun snippet df => rfl, fun df => ?_, copyDataset_eq⟩
  show copyDataset df = df
  exact copyDataset_eq df

/-- C4 counterexample: the sandbox's built-in binding set is not the
set the claim enumerates — it additionally contains the import
primitive `__import__` (plus `sorted` and a disabled `print`), so the
"no filesystem, network, process, or environment access" part fails:
`__import__` reaches arbitrary modules. -/
theorem c4_counterexample_import_exposed :
    restricted_builtin_names.contains "__import__" = true ∧
    claimed_builtin_names.contains "__import__" = false ∧
    (restricted_builtin_names == claimed_builtin_names) = false := by decide

/-- C4 amended: the snippet's namespace binds exactly the cloned
dataset `df`, the handles `pd` and `np`, and `__builtins__`; the
built-in allow-list contains every primitive the claim enumerates but
additionally `sorted`, a disabled `print`, and `__import__` — an import
primitive through which filesystem, network, process and environment
capabilities are reachable; `open`, `exec`, `eval` and `getattr`
themselves are not bound. -/
theorem c4_amended_symbol_set :
    allowed_global_names = ["df", "pd", "np", "__builtins__"] ∧
    claimed_builtin_names.all (fun n => restricted_builtin_names.contains n) = true ∧
    restricted_builtin_names.filter (fun n => !(claimed_builtin_names.contains n)) =
      ["__import__", "sorted", "print"] ∧
    restricted_builtin_names.contains "open" = false ∧
    restricted_builtin_names.contains "exec" = false ∧
    restricted_builtin_names.contains "eval" = false ∧
    restricted_builtin_names.contains "getattr" = false := by decide

/-- C5 counterexample: with syntactically valid code, an empty
confirmation reply (pressing Enter, or the empty string `safe_input`
returns when reading fails) proceeds to sandbox execution instead of
cancelling — the gate is fail-open, not fail-closed. -/
theorem c5_counterexample_empty_input_executes :
    ciConfirmGate ValidationOutcome.valid "" = CiAction.runSandbox := by decide

/-- C5 amended: a confirmation prompt does precede every sandbox
execution, but the polarity is inverted from the claim: execution
proceeds exactly when the reply is empty, any non-empty reply cancels,
and the sandbox is reached only through a valid-syntax, empty-reply
gate — absence of input is implicit approval. -/
theorem c5_amended_confirmation_gate :
    (∀ confirm, ciConfirmGate ValidationOutcome.valid confirm = CiAction.runSandbox ↔
      confirm = "") ∧
    (∀ confirm, ciConfirmGate ValidationOutcome.valid confirm = CiAction.cancelled ↔
      confirm ≠ "") ∧
    (∀ validation confirm, ciConfirmGate validation confirm = CiAction.runSandbox →
      validation = ValidationOutcome.valid ∧ confirm = "") := by
  refine ⟨fun confirm => ?_, fun confirm => ?_, fun validation confirm h => ?_⟩
  · by_cases h : confirm = "" <;> simp [ciConfirmGate, h]
  · by_cases h : confirm = "" <;> simp [ciConfirmGate, h]
  · cases validation with
    | valid =>
      refine ⟨rfl, ?_⟩
      by_cases hc : confirm = ""
      · exact hc
      · simp [ciConfirmGate, hc] at h
    | invalid errMsg => simp [ciConfirmGate] at h

/-- Witness for the amended C5 at the concrete empty reply. -/
theorem c5_amended_witness :
    ciConfirmGate ValidationOutcome.valid "" = CiAction.runSandbox ∧
    (ValidationOutcome.valid = ValidationOutcome.valid ∧ "" = "") :=
  ⟨by decide, c5_amended_confirmation_gate.2.2 ValidationOutcome.valid "" (by decide)⟩

/-- C6: `execute_pandas_code` is total — for every snippet semantics
and dataset it yields either a success dict or an error dict, never an
escaping exception (exceptions are the explicit `ExecEvent`
constructors, all consumed); a completed run that never bound the
`result` slot yields `success=false` with the message naming the
missing binding (the quoted slot name occurs in the message); a completed
run with a bound `result` yields the capped rendering and type name;
and timeout, NameError, syntax and generic failures are each returned
as data with their classified message. -/
theorem c6_execute_pandas_code_classifies_failures :
    (∀ snippet df,
      (∃ r t, (execute_pandas_code snippet df).1 = .ok r t) ∨
      (∃ e, (execute_pandas_code snippet df).1 = .fail e)) ∧
    (∀ snippet df fin, snippet (initialSandbox df) = .completes fin →
      lookupLocal fin.locals "result" = none →
      (execute_pandas_code snippet df).1 = .fail missing_result_msg) ∧
    "'result'".toList <:+: missing_result_msg.toList ∧
    (∀ snippet df fin v, snippet (initialSandbox df) = .completes fin →
      lookupLocal fin.locals "result" = some v →
      (execute_pandas_code snippet df).1 = .ok (capResult v.rendered) v.tyName) ∧
    (∀ snippet df msg, snippet (initialSandbox df) = .timedOut msg →
      (execute_pandas_code snippet df).1 = .fail msg) ∧
    (∀ snippet df msg, snippet (initialSandbox df) = .nameErr msg →
      (execute_pandas_code snippet df).1 =
        .fail ("Ошибка имени (возможно, используется недоступная функция): " ++ msg)) ∧
    (∀ snippet df msg, snippet (initialSandbox df) = .badParse msg →
      (execute_pandas_code snippet df).1 = .fail ("Синтаксическая ошибка: " ++ msg)) ∧
    (∀ snippet df tyName msg, snippet (initialSandbox df) = .otherExn tyName msg →
      (execute_pandas_code snippet df).1 = .fail (tyName ++ ": " ++ msg)) := by
  refine ⟨?_, ?_, by decide, ?_, ?_, ?_, ?_, ?_⟩
  · intro snippet df
    unfold execute_pandas_code
    cases h : snippet (initialSandbox df) with
    | completes fin =>
      cases hl : lookupLocal fin.locals "result" with
      | none => exact Or.inr ⟨missing_result_msg, by simp [hl]⟩
      | some v => exact Or.inl ⟨capResult v.rendered, v.tyName, by simp [hl]⟩
    | timedOut msg => exact Or.inr ⟨_, rfl⟩
    | badParse msg => exact Or.inr ⟨_, rfl⟩
    | nameErr msg => exact Or.inr ⟨_, rfl⟩
    | otherExn tyName msg => exact Or.inr ⟨_, rfl⟩
  · intro snippet df fin h hl
    unfold execute_pandas_code
    rw [h]
    simp [hl]
  · intro snippet df fin v h hl
    unfold execute_pandas_code
    rw [h]
    simp [hl]
  · intro snippet df msg h
    unfold execute_pandas_code
    rw [h]
  · intro snippet df msg h
    unfold execute_pandas_code
    rw [h]
  · intro snippet df msg h
    unfold execute_pandas_code
    rw [h]
  · intro snippet df tyName msg h
    unfold execute_pandas_code
    rw [h]

/-- Witness for C6 at concrete snippets: a run with no `result`
binding, a timed-out run, and a NameError run each return the
classified error dict. -/
theorem c6_witness :
    (execute_pandas_code snippetNoResult demoDf).1 = .fail missing_result_msg ∧
    (execute_pandas_code snippetTimeout demoDf).1 =
      .fail "Code execution timed out (5 seconds)" ∧
    (execute_pandas_code snippetNameErr demoDf).1 =
      .fail ("Ошибка имени (возможно, используется недоступная функция): " ++
        "name 'open' is not defined") :=
  ⟨c6_execute_pandas_code_classifies_failures.2.1 snippetNoResult demoDf _ rfl rfl,
   c6_execute_pandas_code_classifies_failures.2.2.2.2.1 snippetTimeout demoDf _ rfl,
   c6_execute_pandas_code_classifies_failures.2.2.2.2.2.1 snippetNameErr demoDf _ rfl⟩

/-- Helper: any parse failure produces a verdict with `passed = true`. -/
theorem judge_step_parse_passed_of_parseFails
    (parse : String → Option JudgeVerdict) (response : String)
    (h : parseFails parse response) :
    (judge_step_parse parse response).passed = true := by
  rcases h with h | ⟨slice, hs, hp⟩
  · simp [judge_step_parse, h]
  · simp [judge_step_parse, hs, hp]

/-- Helper: a judge that accepts whatever attempt 1 produces makes the
step-retry loop return on attempt 1. -/
theorem run_tool_wrapper_first_pass (agentFn : Nat → String → AgentOutcome)
    (judge : Nat → String → JudgeVerdict)
    (h : ∀ resultStr, (judge 1 resultStr).passed = true) :
    (run_tool_wrapper agentFn judge).2 = 1 := by
  show (runToolAux agentFn judge (14 + 1) 1 none "").2 = 1
  rw [runToolAux, if_pos (Or.inl (h _))]

/-- C7: a judge reply with no JSON object, or whose extracted slice
`json.loads` rejects, degrades to the permissive default verdict
`passed = true`, `score = 5`; consequently a run of the step-retry loop
in which every judge reply is unparseable accepts the very first
attempt — it can neither hang nor exceed the attempt bound. -/
theorem c7_unparseable_judge_degrades_to_pass :
    (∀ parse response, braceSlice response = none →
      judge_step_parse parse response =
        ⟨true, "Не удалось разобрать ответ Судьи, пропускаем.", 5⟩) ∧
    (∀ parse response slice, braceSlice response = some slice → parse slice = none →
      judge_step_parse parse response =
        ⟨true, "Ошибка парсинга ответа Судьи.", 5⟩) ∧
    (∀ (agentFn : Nat → String → AgentOutcome)
       (parse : String → Option JudgeVerdict) (responses : Nat → String → String),
      (∀ attempt resultStr, parseFails parse (responses attempt resultStr)) →
      (run_tool_wrapper agentFn
        (fun attempt resultStr =>
          judge_step_parse parse (responses attempt resultStr))).2 = 1) := by
  refine ⟨?_, ?_, ?_⟩
  · intro parse response h
    simp [judge_step_parse, h]
  · intro parse response slice hs hp
    simp [judge_step_parse, hs, hp]
  · intro agentFn parse responses h
    exact run_tool_wrapper_first_pass agentFn _
      (fun resultStr => judge_step_parse_passed_of_parseFails parse _ (h 1 resultStr))

/-- Witness for C7: a brace-free reply and a reply whose slice the
parser rejects both give the permissive default, and a run whose judge
replies are always unparseable returns on attempt 1. -/
theorem c7_witness :
    judge_step_parse (fun _ => none) "Судья ответил свободным текстом без JSON" =
      ⟨true, "Не удалось разобрать ответ Судьи, пропускаем.", 5⟩ ∧
    judge_step_parse (fun _ => none) "до \x7bx\x7d после" =
      ⟨true, "Ошибка парсинга ответа Судьи.", 5⟩ ∧
    (run_tool_wrapper demoAgent
      (fun attempt resultStr =>
        judge_step_parse (fun _ => none) (demoNoJsonResponses attempt resultStr))).2 = 1 :=
  ⟨c7_unparseable_judge_degrades_to_pass.1 (fun _ => none)
     "Судья ответил свободным текстом без JSON" rfl,
   c7_unparseable_judge_degrades_to_pass.2.1 (fun _ => none)
     "до \x7bx\x7d после" "\x7bx\x7d" rfl rfl,
   c7_unparseable_judge_degrades_to_pass.2.2 demoAgent (fun _ => none)
     demoNoJsonResponses (fun _ _ => Or.inl rfl)⟩

/-- C8 counterexample: the per-round memory persistence is a single
direct overwrite of `memory.md`, not a write-temp-then-rename sequence
— at a concrete output directory and memory blob the action list fails
the temp-then-rename protocol check. -/
theorem c8_counterexample_direct_write :
    isWriteTempThenRename (joinPath "reports/demo" "memory.md") "memory state"
      (persistMemoryActions "reports/demo" "memory state") = false := by decide

/-- C8 amended: after every round the memory blob is persisted
immediately, but by a single direct overwrite of `memory.md` with the
full content — no temporary file and no rename are involved, so the
write carries no crash-atomicity guarantee. -/
theorem c8_amended_memory_persisted_by_direct_overwrite :
    (∀ outputDir memoryText,
      persistMemoryActions outputDir memoryText =
        [FsAction.write (joinPath outputDir "memory.md") memoryText]) ∧
    (∀ outputDir memoryText,
      isWriteTempThenRename (joinPath outputDir "memory.md") memoryText
        (persistMemoryActions outputDir memoryText) = false) :=
  ⟨fun _ _ => rfl, fun _ _ => rfl⟩

/-- Helper: the session counter grows by at most the remaining budget. -/
theorem sessionLoop_attempt_le (o : SessionOracles) (df0 : Dataset) :
    ∀ fuel sessionAttempt st,
      (sessionLoop o df0 fuel sessionAttempt st).sessionAttempt ≤
        sessionAttempt + fuel := by
  intro fuel
  induction fuel with
  | zero =>
    intro s st
    rw [sessionLoop]
    exact Nat.le_add_right s 0
  | succ f ih =>
    intro s st
    rw [sessionLoop]
    split
    · exact Nat.le_add_right s (f + 1)
    · split
      · exact le_trans (ih (s + 1) _) (by omega)
      · exact le_trans (ih (s + 1) _) (by omega)

/-- C2: the session counter never exceeds the configured bound
`MAX_SESSION_RETRIES = 2`; a round loop that exits requesting a restart
makes the next session start with artifacts cleared to empty, memory
seeded with the critique text and the working dataset reset to the
originally loaded dataset, incrementing the session counter exactly
once; a round loop that exits with the budget exhausted carries its
state (artifacts included) forward unchanged; and with no fuel the loop
returns the current state — it always terminates, never raising. -/
theorem c2_session_restart_resets_state :
    (∀ o df0, (runSession o df0).sessionAttempt ≤ MAX_SESSION_RETRIES) ∧
    (∀ o df0 fuel sessionAttempt st critique st',
      st.globalPassed = false →
      roundLoop o (sessionAttempt + 1) MAX_STEPS 0 st [] =
        (.restartRequested critique, st') →
      sessionLoop o df0 (fuel + 1) sessionAttempt st =
        sessionLoop o df0 fuel (sessionAttempt + 1)
          ⟨[], restartMemory critique, df0, st'.globalPassed⟩) ∧
    (∀ o df0 fuel sessionAttempt st st',
      st.globalPassed = false →
      roundLoop o (sessionAttempt + 1) MAX_STEPS 0 st [] = (.budgetExhausted, st') →
      sessionLoop o df0 (fuel + 1) sessionAttempt st =
        sessionLoop o df0 fuel (sessionAttempt + 1) st') ∧
    (∀ o df0 sessionAttempt st,
      sessionLoop o df0 0 sessionAttempt st =
        ⟨sessionAttempt, st.globalPassed, st.artifacts, st.memory, st.df⟩) := by
  refine ⟨?_, ?_, ?_, ?_⟩
  · intro o df0
    have := sessionLoop_attempt_le o df0 MAX_SESSION_RETRIES 0
      ⟨[], initialSessionMemory, copyDataset df0, false⟩
    unfold runSession
    omega
  · intro o df0 fuel sessionAttempt st critique st' hgp hround
    rw [sessionLoop, if_neg (by simp [hgp]), hround]
    show sessionLoop o df0 fuel (sessionAttempt + 1)
      ⟨[], restartMemory critique, copyDataset df0, st'.globalPassed⟩ = _
    rw [copyDataset_eq]
  · intro o df0 fuel sessionAttempt st st' hgp hround
    rw [sessionLoop, if_neg (by simp [hgp]), hround]
  · intro o df0 sessionAttempt st
    rw [sessionLoop]

/-- Witness for C2 at concrete oracles whose cumulative judge always
fails: the bound holds, session 1's failing round triggers the reset
restart, session 2's failing round exhausts the budget and carries its
state forward, and the drained loop returns the carried state. -/
theorem c2_witness :
    (runSession demoFailOracles demoDf).sessionAttempt ≤ MAX_SESSION_RETRIES ∧
    sessionLoop demoFailOracles demoDf 2 0 demoStartState =
      sessionLoop demoFailOracles demoDf 1 1
        ⟨[], restartMemory "Failed on purpose", demoDf,
          (roundLoop demoFailOracles 1 MAX_STEPS 0 demoStartState []).2.globalPassed⟩ ∧
    sessionLoop demoFailOracles demoDf 1 1 demoStartState =
      sessionLoop demoFailOracles demoDf 0 2
        (roundLoop demoFailOracles 2 MAX_STEPS 0 demoStartState []).2 ∧
    sessionLoop demoFailOracles demoDf 0 2 demoStartState =
      ⟨2, demoStartState.globalPassed, demoStartState.artifacts,
        demoStartState.memory, demoStartState.df⟩ :=
  ⟨c2_session_restart_resets_state.1 demoFailOracles demoDf,
   c2_session_restart_resets_state.2.1 demoFailOracles demoDf 1 0 demoStartState
     "Failed on purpose" (roundLoop demoFailOracles 1 MAX_STEPS 0 demoStartState []).2
     rfl (by rfl),
   c2_session_restart_resets_state.2.2.1 demoFailOracles demoDf 0 1 demoStartState
     (roundLoop demoFailOracles 2 MAX_STEPS 0 demoStartState []).2 rfl (by rfl),
   c2_session_restart_resets_state.2.2.2 demoFailOracles demoDf 2 demoStartState⟩

/-- Helper: a round loop that exits at the step limit always leaves
`global_passed = True`. -/
theorem roundLoop_stepLimit_passed (o : SessionOracles) :
    ∀ fuel sessionAttempt stepCount st outs st',
      roundLoop o sessionAttempt fuel stepCount st outs = (.stepLimit, st') →
      st'.globalPassed = true := by
  intro fuel
  induction fuel with
  | zero =>
    intro s sc st outs st' h
    rw [roundLoop] at h
    simp at h
  | succ f ih =>
    intro s sc st outs st' h
    rw [roundLoop] at h
    repeat' split at h
    all_goals
      first
        | exact ih _ _ _ _ _ h
        | (rw [Prod.mk.injEq] at h; rw [← h.2]; done)
        | simp at h

/-- C9: `MAX_STEPS` defaults to 10; whenever the round loop terminates
through the step-limit branch (the counter reached `MAX_STEPS` without
a Finish decision), the session outcome flag is `passed = true`; and a
session state whose flag is set proceeds to the interactive
consultation phase. -/
theorem c9_max_steps_reached_is_implicit_pass :
    MAX_STEPS = 10 ∧
    (∀ o sessionAttempt fuel stepCount st outs st',
      roundLoop o sessionAttempt fuel stepCount st outs = (.stepLimit, st') →
      st'.globalPassed = true) ∧
    (∀ o df0 fuel sessionAttempt st, st.globalPassed = true →
      proceedsToConsultation (sessionLoop o df0 fuel sessionAttempt st) = true) := by
  refine ⟨rfl, fun o s fuel sc st outs st' h =>
    roundLoop_stepLimit_passed o fuel s sc st outs st' h, ?_⟩
  intro o df0 fuel sessionAttempt st h
  cases fuel with
  | zero => simp [sessionLoop, proceedsToConsultation, h]
  | succ f => simp [sessionLoop, proceedsToConsultation, h]

/-- Witness for C9 at concrete oracles whose planner never chooses
Finish and whose judge always passes: the loop exits at the step limit
with the flag set and the consultation phase is reached. -/
theorem c9_witness :
    roundLoop demoPassOracles 1 MAX_STEPS 0 demoStartState [] =
      (.stepLimit, (roundLoop demoPassOracles 1 MAX_STEPS 0 demoStartState []).2) ∧
    (roundLoop demoPassOracles 1 MAX_STEPS 0 demoStartState []).2.globalPassed = true ∧
    proceedsToConsultation (sessionLoop demoPassOracles demoDf 1 1
      (roundLoop demoPassOracles 1 MAX_STEPS 0 demoStartState []).2) = true := by
  have h2 := c9_max_steps_reached_is_implicit_pass.2.1 demoPassOracles 1 MAX_STEPS 0
    demoStartState [] (roundLoop demoPassOracles 1 MAX_STEPS 0 demoStartState []).2
    (by rfl)
  exact ⟨by rfl, h2,
    c9_max_steps_reached_is_implicit_pass.2.2 demoPassOracles demoDf 1 1 _ h2⟩

/-- C10: `execute_tool` is total — an unknown tool name yields an error
dict naming the available tools, a dispatched function returning a dict
has that dict passed through, a `TypeError` (argument mismatch) yields
an invalid-arguments error dict, and any other exception raised by the
dispatched function is caught and returned as an error dict; exceptions
are the explicit `ToolOutcome` constructors, all consumed, so nothing
escapes to the caller. -/
theorem c10_execute_tool_total :
    (∀ impl toolName args df, toolName ∉ chat_tool_names →
      execute_tool impl toolName args df =
        [("error", "Неизвестный инструмент: " ++ toolName ++
          ". Попробуй один из: " ++ String.intercalate ", " chat_tool_names)]) ∧
    (∀ impl toolName args df d, toolName ∈ chat_tool_names →
      impl toolName args df = .ok d →
      execute_tool impl toolName args df = d) ∧
    (∀ impl toolName args df msg, toolName ∈ chat_tool_names →
      impl toolName args df = .typeError msg →
      execute_tool impl toolName args df =
        [("error", "Неверные аргументы: " ++ msg)]) ∧
    (∀ impl toolName args df msg, toolName ∈ chat_tool_names →
      impl toolName args df = .raises msg →
      execute_tool impl toolName args df = [("error", msg)]) := by
  refine ⟨?_, ?_, ?_, ?_⟩
  · intro impl toolName args df h
    rw [execute_tool, if_pos h]
  · intro impl toolName args df d hmem himpl
    rw [execute_tool, if_neg (fun hn => hn hmem), himpl]
  · intro impl toolName args df msg hmem himpl
    rw [execute_tool, if_neg (fun hn => hn hmem), himpl]
  · intro impl toolName args df msg hmem himpl
    rw [execute_tool, if_neg (fun hn => hn hmem), himpl]

/-- Witness for C10 at a concrete implementation oracle: unknown name,
pass-through dict, argument mismatch and a raising tool each give the
classified dict. -/
theorem c10_witness :
    execute_tool demoToolImpl "no_such_tool" [] demoDf =
      [("error", "Неизвестный инструмент: " ++ "no_such_tool" ++
        ". Попробуй один из: " ++ String.intercalate ", " chat_tool_names)] ∧
    execute_tool demoToolImpl "get_dataframe_info" [] demoDf = [("rows", "2")] ∧
    execute_tool demoToolImpl "get_top_n" [] demoDf =
      [("error", "Неверные аргументы: " ++ "unexpected keyword argument 'foo'")] ∧
    execute_tool demoToolImpl "get_describe" [] demoDf =
      [("error", "Column does not exist")] :=
  ⟨c10_execute_tool_total.1 demoToolImpl "no_such_tool" [] demoDf (by decide),
   c10_execute_tool_total.2.1 demoToolImpl "get_dataframe_info" [] demoDf
     [("rows", "2")] (by decide) rfl,
   c10_execute_tool_total.2.2.1 demoToolImpl "get_top_n" [] demoDf
     "unexpected keyword argument 'foo'" (by decide) rfl,
   c10_execute_tool_total.2.2.2 demoToolImpl "get_describe" [] demoDf
     "Column does not exist" (by decide) rfl⟩

end AutoPM
